import Mathlib

/-!
Shallow embedding of the broadcast-hub server (`server.go`) of the
multiplayer-games repository, together with proofs of the specified
properties of its registry, broadcaster, HTTP publish handler and
connection-session lifecycle.

Conventions of the embedding:
* a message payload (`[]byte`) is a `List Nat` of its bytes;
* a subscriber's buffered channel `msgs` (capacity
  `subscriberMessageBuffer`) is a FIFO `List` of pending payloads; the
  non-blocking send `select { case s.msgs <- msg: default: ... }` succeeds
  exactly when the buffer holds fewer elements than its capacity;
* the `go s.closeSlow()` dispatches of `publish` are collected in a list
  (they run asynchronously and return nothing to the broadcast loop);
* the registry map `map[*subscriber]struct{}` keyed on pointer identity is
  modelled at two granularities: a `List Subscriber` (to track each queue's
  contents during `publish`) and a `Finset Nat` of pointer tokens (for
  `addSubscriber` / `deleteSubscriber` membership);
* blocking calls (`publishLimiter.Wait`, channel receive, `c.Reader`) are
  modelled by their returned outcome, supplied by the environment; real
  time (the 5-second write timeout, the 60-minute deadline) appears as the
  numeric constants the source passes to the corresponding calls.
-/

namespace GameHub

/-- Message payload: the raw bytes of a `[]byte`. -/
abbrev Msg := List Nat

/-- WebSocket close code `websocket.StatusNormalClosure` (1000). -/
def StatusNormalClosure : Nat := 1000

/-- WebSocket close code `websocket.StatusGoingAway` (1001). -/
def StatusGoingAway : Nat := 1001

/-- WebSocket close code `websocket.StatusPolicyViolation` (1008). -/
def StatusPolicyViolation : Nat := 1008

/-- `subscriber` of `server.go`: identity (`r.RemoteAddr`) plus the contents
of its buffered outbound channel `msgs`.  The `closeSlow` callback is
modelled separately by `closeSlow` acting on the session's `ConnState`. -/
structure Subscriber where
  id : String
  msgs : List Msg
deriving DecidableEq, Repr

/-- The part of `gameServer` the registry and broadcaster touch: the
`subscriberMessageBuffer` capacity (16 by default, set once in
`newGameServer`) and the set of registered subscribers.  The limiter, log
sink, HTTP mux and loaded game are I/O collaborators with no bearing on the
properties proved here. -/
structure GameServer where
  subscriberMessageBuffer : Nat
  subscribers : List Subscriber
deriving DecidableEq, Repr

/-- `newGameServer` defaults: `subscriberMessageBuffer: 16`, empty registry. -/
def newGameServer : GameServer :=
  { subscriberMessageBuffer := 16, subscribers := [] }

/-- One step of the loop body of `publish` for a single subscriber `s`:
the non-blocking channel send.  If the buffered channel has room
(`length < capacity`) the message is appended; otherwise the queue is left
unchanged and `go s.closeSlow()` is dispatched (second component `true`). -/
def enqueueOrEvict (cap : Nat) (msg : Msg) (s : Subscriber) : Subscriber × Bool :=
  if s.msgs.length < cap then ({ s with msgs := s.msgs ++ [msg] }, false)
  else (s, true)

/-- `publish` of `server.go`: under `subscribersMu` (and after the global
`publishLimiter.Wait`, a pure delay), iterate all registered subscribers and
attempt a non-blocking enqueue of `msg` on each.  Returns the updated server
and, in order, the subscribers whose `closeSlow` was dispatched
asynchronously.  `publish` returns no error to its caller. -/
def publish (cs : GameServer) (msg : Msg) : GameServer × List Subscriber :=
  let stepped := cs.subscribers.map (enqueueOrEvict cs.subscriberMessageBuffer msg)
  ({ cs with subscribers := stepped.map Prod.fst },
   (stepped.filter Prod.snd).map Prod.fst)

/-! Registry membership model: the map `subscribers map[*subscriber]struct{}`
is keyed on the pointer, so membership is a set of pointer tokens (`Nat`). -/

/-- `addSubscriber`: insert the subscriber (pointer token) into the map. -/
def addSubscriber (reg : Finset Nat) (s : Nat) : Finset Nat :=
  insert s reg

/-- `deleteSubscriber`: `delete(cs.subscribers, s)` removes the key if
present and is a no-op otherwise. -/
def deleteSubscriber (reg : Finset Nat) (s : Nat) : Finset Nat :=
  reg.erase s

/-! HTTP publish handler. -/

/-- HTTP request method, as compared against `"POST"` in `publishHandler`. -/
inductive Method
  | POST
  | GET
  | other (name : String)
deriving DecidableEq, Repr

/-- The parts of an `http.Request` that `publishHandler` consults: the
method, the caller's address, the bytes of the body the client transmits,
and whether reading the body fails for a reason other than its size (for
example the client aborting mid-transfer). -/
structure HttpRequest where
  method : Method
  remoteAddr : String
  body : List Nat
  readFails : Bool
deriving DecidableEq, Repr

/-- Byte limit `http.MaxBytesReader(w, r.Body, 8192)` places on the body. -/
def maxPublishBytes : Nat := 8192

/-- Outcome of `publishHandler` visible to the caller and to the hub: the
HTTP status written, the `cs.game.HandleMsg(r.RemoteAddr, msg)` call if one
was made, and the payload handed to `publish` if any. -/
structure PublishResponse where
  status : Nat
  handled : Option (String × List Nat)
  published : Option (List Nat)
deriving DecidableEq, Repr

/-- `publishHandler` of `server.go`: reject non-POST with 405; read the body
through `MaxBytesReader(8192)` and `io.ReadAll`, answering 413 on any read
error (the size cap exceeded, or any other failure while reading); otherwise
forward the message to the game handler, then `publish` it, and answer 202.
Returns the response, the updated server and the dispatched `closeSlow`s. -/
def publishHandler (cs : GameServer) (req : HttpRequest) :
    PublishResponse × GameServer × List Subscriber :=
  if req.method ≠ Method.POST then
    ({ status := 405, handled := none, published := none }, cs, [])
  else if req.readFails ∨ maxPublishBytes < req.body.length then
    ({ status := 413, handled := none, published := none }, cs, [])
  else
    let r := publish cs req.body
    ({ status := 202,
       handled := some (req.remoteAddr, req.body),
       published := some req.body }, r.1, r.2)

/-! Session-local closure state: the `mu`-guarded variables `c` (the
connection, once the handshake stores it) and `closed` of `subscribe`,
shared with the `closeSlow` callback. -/

/-- The `mu`-guarded state of one `subscribe` call: `closed` flag and the
connection pointer `c` (a token once `c = c2` has run, `none` before). -/
structure ConnState where
  closed : Bool
  conn : Option Nat
deriving DecidableEq, Repr

/-- A `c.Close(code, reason)` call issued on the connection. -/
structure CloseAction where
  code : Nat
  reason : String
deriving DecidableEq, Repr

/-- `closeSlow` of the subscriber built in `subscribe`: under `mu`, set
`closed = true` and, only if the connection has been stored (`c != nil`),
close it with `StatusPolicyViolation`.  Returns the new state and the close
calls issued. -/
def closeSlow (st : ConnState) : ConnState × List CloseAction :=
  ({ st with closed := true },
   match st.conn with
   | some _ => [{ code := StatusPolicyViolation,
                  reason := "connection too slow to keep up with messages" }]
   | none => [])

/-- The `mu`-guarded block of `subscribe` right after `websocket.Accept`
succeeds: if `closed` is already set, fail with `net.ErrClosed` (`none`);
otherwise store the accepted connection `c2`. -/
def storeConn (st : ConnState) (c2 : Nat) : Option ConnState :=
  if st.closed then none else some { st with conn := some c2 }

/-! Connection-session lifecycle: `subscribe` and its write loop. -/

/-- Per-send timeout `subscribe` passes to `writeTimeout`
(`time.Second*5`), in seconds. -/
def writeTimeoutSeconds : Nat := 5

/-- Session deadline `context.WithTimeout(..., time.Minute*60)`, in
minutes. -/
def sessionDeadlineMinutes : Nat := 60

/-- Phase of one `subscribe` call, observed together with whether its
subscriber is in the registry at that instant. -/
inductive Phase
  | created
  | registered
  | active
  | closed
deriving DecidableEq, Repr

/-- One observation point of a session: its phase and whether its
subscriber is currently a member of the registry map. -/
structure SessionObs where
  phase : Phase
  inRegistry : Bool
deriving DecidableEq, Repr

/-- What the `select` of the write loop wakes up on: a payload received
from `s.msgs`, or `ctx.Done()` (the 60-minute deadline firing or the
context being cancelled). -/
inductive WriteEvent
  | msgArrived (m : Msg)
  | deadline
deriving DecidableEq, Repr

/-- How a `subscribe` call returns. -/
inductive SubscribeResult
  | acceptError
  | errClosed
  | writeError
  | ctxDone
deriving DecidableEq, Repr

/-- Write loop of `subscribe` (`for { select { ... } }`).  `send m t` is the
environment's verdict on `writeTimeout(ctx, t seconds, c, m)`: `true` if the
frame went out within the timeout, `false` on timeout or transport error.
Returns the log of transmit attempts (payload, timeout passed) and the
loop's outcome: `none` while still waiting, `some .writeError` when a send
failed, `some .ctxDone` when `ctx.Done()` fired (the loop returns
`ctx.Err()`). -/
def writeLoop (send : Msg → Nat → Bool) : List WriteEvent →
    List (Msg × Nat) × Option SubscribeResult
  | [] => ([], none)
  | WriteEvent.msgArrived m :: rest =>
      if send m writeTimeoutSeconds then
        let r := writeLoop send rest
        ((m, writeTimeoutSeconds) :: r.1, r.2)
      else ([(m, writeTimeoutSeconds)], some SubscribeResult.writeError)
  | WriteEvent.deadline :: _ => ([], some SubscribeResult.ctxDone)

/-- One whole `subscribe` call as the sequence of its observation points,
driven by the environment: `acceptOk` is whether `websocket.Accept`
succeeds, `closedAtCheck` whether `closeSlow` has set `closed` by the time
the guarded check after the handshake runs, `send` and `events` drive the
write loop.  The order mirrors the source: the subscriber is built, then
`addSubscriber` registers it, then the handshake runs, then the loops; the
deferred `deleteSubscriber` removes it on every exit path.  Returns the
observations, the transmit log and the result (`none` when the loops are
still running). -/
def subscribeRun (acceptOk closedAtCheck : Bool) (send : Msg → Nat → Bool)
    (events : List WriteEvent) :
    List SessionObs × List (Msg × Nat) × Option SubscribeResult :=
  let pre : List SessionObs :=
    [{ phase := Phase.created, inRegistry := false },
     { phase := Phase.registered, inRegistry := true }]
  if !acceptOk then
    (pre ++ [{ phase := Phase.closed, inRegistry := false }], [],
     some SubscribeResult.acceptError)
  else if closedAtCheck then
    (pre ++ [{ phase := Phase.closed, inRegistry := false }], [],
     some SubscribeResult.errClosed)
  else
    let r := writeLoop send events
    match r.2 with
    | none =>
        (pre ++ [{ phase := Phase.active, inRegistry := true }], r.1, none)
    | some res =>
        (pre ++ [{ phase := Phase.active, inRegistry := true },
                 { phase := Phase.closed, inRegistry := false }], r.1,
         some res)

/-! Read loop: `listen` and `echo`. -/

/-- What one iteration of `echo` runs into, supplied by the environment:
a frame read and processed normally, a close frame from the peer carrying a
status code (surfaced by `c.Reader` as a `CloseError`), cancellation inside
`l.Wait(ctx)`, or any other transport error. -/
inductive FrameResult
  | frame (m : Msg)
  | closeFrame (code : Nat)
  | limiterCancelled
  | ioError
deriving DecidableEq, Repr

/-- Error returned by one `echo` call (`none` when it processed a frame and
returned `nil`). -/
inductive EchoError
  | close (code : Nat)
  | limiter
  | transport
deriving DecidableEq, Repr

/-- `websocket.CloseStatus`: the status code when the error is a
`CloseError`, and `none` (the Go function returns `-1`) otherwise. -/
def closeStatus : EchoError → Option Nat
  | EchoError.close code => some code
  | _ => none

/-- One `echo` call: `l.Wait(ctx)`, then `c.Reader(ctx)`, then forward the
frame to the game handler and `publish` it.  Only the returned error
matters to `listen`. -/
def echoStep : FrameResult → Option EchoError
  | FrameResult.frame _ => none
  | FrameResult.closeFrame code => some (EchoError.close code)
  | FrameResult.limiterCancelled => some EchoError.limiter
  | FrameResult.ioError => some EchoError.transport

/-- `listen`: call `echo` in a loop.  When `echo`'s error has close status
`StatusNormalClosure`, return `nil`; on any other non-nil error, log it and
return it; otherwise keep looping.  Outcome: `none` while the loop is still
running (all supplied iterations processed frames), `some none` for the
clean `return nil`, `some (some e)` for `return err`. -/
def listenLoop : List FrameResult → Option (Option EchoError)
  | [] => none
  | fr :: rest =>
      match echoStep fr with
      | none => listenLoop rest
      | some e =>
          if closeStatus e = some StatusNormalClosure then some none
          else some (some e)

/-- True for the iterations on which `echo` returns `nil` (an ordinary
frame was processed). -/
def isCleanFrame : FrameResult → Bool
  | FrameResult.frame _ => true
  | _ => false

/-- Restatement of the read-loop contract in the spec's terms, for
comparison with `listenLoop`: find the first iteration on which `echo`
errors; if none occurred the loop is still running; if its close status is
the normal closure the loop ends without error; otherwise the loop ends
with that error. -/
def listenLoopSpec (frs : List FrameResult) : Option (Option EchoError) :=
  match frs.find? (fun fr => !isCleanFrame fr) with
  | none => none
  | some fr =>
      match echoStep fr with
      | none => none
      | some e =>
          if closeStatus e = some StatusNormalClosure then some none
          else some (some e)

/-- How one session terminates, with both loops running: `subscribe`
launches the read loop with `go cs.listen(ctx, w, r, c, l)` and discards
the goroutine's return value, so the session's terminal condition — the
error `subscribe` returns — is determined by the write-loop `select` alone,
while the read loop's outcome is only logged inside `listen`.  First
component: the session's terminal condition; second: the read loop's
(logged) outcome. -/
def sessionTerminal (send : Msg → Nat → Bool) (events : List WriteEvent)
    (frs : List FrameResult) : Option SubscribeResult × Option (Option EchoError) :=
  ((writeLoop send events).2, listenLoop frs)

/-! Helper lemmas about `publish`. -/

/-- The `closeSlow` dispatches of `publish` are exactly the subscribers
whose queue was full when the loop reached them. -/
theorem publish_evicted_eq_filter (cap : Nat) (msg : Msg) (l : List Subscriber) :
    ((l.map (enqueueOrEvict cap msg)).filter Prod.snd).map Prod.fst
      = l.filter (fun t => !(t.msgs.length < cap)) := by
  induction l with
  | nil => rfl
  | cons a l ih =>
      by_cases h : a.msgs.length < cap <;>
        simp [enqueueOrEvict, h, ih]

/-- C1.  `publish msg` on a server with the default queue capacity 16:
the subscribers whose `closeSlow` is dispatched are exactly those whose
queue is full; a subscriber with free queue space gets `msg` appended to
its queue; a subscriber with a full queue keeps its queue unchanged and is
among the dispatched `closeSlow`s.  The loop body is a total function of
each subscriber's state (the non-blocking `select` with a `default`
branch), so the broadcast never waits on any subscriber's queue. -/
theorem publish_nonblocking_fanout (cs : GameServer) (msg : Msg) (i : Nat)
    (s : Subscriber) (hbuf : cs.subscriberMessageBuffer = 16)
    (hs : cs.subscribers[i]? = some s) :
    ((publish cs msg).2
        = cs.subscribers.filter (fun t => !(t.msgs.length < 16))) ∧
    (s.msgs.length < 16 →
        (publish cs msg).1.subscribers[i]?
          = some { s with msgs := s.msgs ++ [msg] }) ∧
    (¬ s.msgs.length < 16 →
        (publish cs msg).1.subscribers[i]? = some s ∧
        s ∈ (publish cs msg).2) := by
  have hget : (publish cs msg).1.subscribers[i]?
      = (cs.subscribers[i]?).map (fun t => (enqueueOrEvict 16 msg t).1) := by
    simp [publish, hbuf, List.getElem?_map]
    rfl
  have hev : (publish cs msg).2
      = cs.subscribers.filter (fun t => !(t.msgs.length < 16)) := by
    simp only [publish, hbuf]
    exact publish_evicted_eq_filter 16 msg cs.subscribers
  refine ⟨hev, ?_, ?_⟩
  · intro hlt
    rw [hget, hs]
    simp [enqueueOrEvict, hlt]
  · intro hfull
    constructor
    · rw [hget, hs]
      simp [enqueueOrEvict, hfull]
    · rw [hev]
      refine List.mem_filter.mpr ⟨List.getElem?_mem hs, ?_⟩
      simp [hfull]

/-- Witness for C1: on a server holding one subscriber with an empty queue
and one with a full queue of 16, publishing `[7]` appends to the first
queue, leaves the second unchanged and dispatches `closeSlow` exactly for
the second. -/
theorem publish_nonblocking_fanout_witness :
    (publish ⟨16, [⟨"a", []⟩, ⟨"b", List.replicate 16 [0]⟩]⟩ [7]).1.subscribers[0]?
        = some ⟨"a", [[7]]⟩ ∧
    (publish ⟨16, [⟨"a", []⟩, ⟨"b", List.replicate 16 [0]⟩]⟩ [7]).1.subscribers[1]?
        = some ⟨"b", List.replicate 16 [0]⟩ ∧
    (publish ⟨16, [⟨"a", []⟩, ⟨"b", List.replicate 16 [0]⟩]⟩ [7]).2
        = [⟨"b", List.replicate 16 [0]⟩] := by
  have ha := publish_nonblocking_fanout ⟨16, [⟨"a", []⟩, ⟨"b", List.replicate 16 [0]⟩]⟩
    [7] 0 ⟨"a", []⟩ rfl rfl
  have hb := publish_nonblocking_fanout ⟨16, [⟨"a", []⟩, ⟨"b", List.replicate 16 [0]⟩]⟩
    [7] 1 ⟨"b", List.replicate 16 [0]⟩ rfl (by decide)
  refine ⟨ha.2.1 (by decide), (hb.2.2 (by decide)).1, ?_⟩
  rw [ha.1]
  decide

/-- C8.  `deleteSubscriber` removes the subscriber if present and is a
no-op otherwise: deleting twice equals deleting once, and deleting an
unregistered subscriber leaves the registry unchanged. -/
theorem deleteSubscriber_idem (reg : Finset Nat) (s : Nat) :
    deleteSubscriber (deleteSubscriber reg s) s = deleteSubscriber reg s ∧
    (s ∉ reg → deleteSubscriber reg s = reg) :=
  ⟨Finset.erase_idem, fun h => Finset.erase_eq_of_not_mem h⟩

/-- Witness for C8 on the registry `{1, 2}` and the unregistered token 3. -/
theorem deleteSubscriber_idem_witness :
    deleteSubscriber (deleteSubscriber {1, 2} 3) 3 = deleteSubscriber {1, 2} 3 ∧
    deleteSubscriber {1, 2} 3 = {1, 2} :=
  ⟨(deleteSubscriber_idem {1, 2} 3).1,
   (deleteSubscriber_idem {1, 2} 3).2 (by decide)⟩

/-- C9.  Any error from `io.ReadAll` on the capped body — not only the size
cap firing — makes `publishHandler` answer 413, and in that case the game
handler is not invoked, nothing is broadcast, the registry is untouched and
no `closeSlow` is dispatched. -/
theorem read_error_gives_413 (cs : GameServer) (req : HttpRequest)
    (hm : req.method = Method.POST) (hf : req.readFails = true) :
    publishHandler cs req
      = ({ status := 413, handled := none, published := none }, cs, []) := by
  simp [publishHandler, hm, hf]

/-- Witness for C9: a 2-byte POST whose body read fails is answered 413 and
leaves the default server untouched. -/
theorem read_error_gives_413_witness :
    publishHandler newGameServer ⟨Method.POST, "peer", [1, 2], true⟩
      = ({ status := 413, handled := none, published := none },
         newGameServer, []) :=
  read_error_gives_413 newGameServer ⟨Method.POST, "peer", [1, 2], true⟩ rfl rfl

/-- C2, counterexample.  The claimed invariant "in the registry iff the
session is between accepted and torn down (i.e. `Active`)" fails on the
code: `subscribe` calls `addSubscriber(s)` before `websocket.Accept`, so in
the run where the handshake succeeds, the trace contains an observation
point where the subscriber is registered while the session has not yet been
accepted (phase `registered`, not `active`). -/
theorem registry_iff_active_counterexample :
    ¬ (∀ o ∈ (subscribeRun true false (fun _ _ => true) []).1,
        o.inRegistry = true ↔ o.phase = Phase.active) := by
  intro h
  have := h { phase := Phase.registered, inRegistry := true } (by decide)
  simp at this

/-- C2, amended.  At every observation point of every session run, the
subscriber is in the registry iff the session is between registration
(which happens before the connection handshake) and teardown: membership
holds exactly in the phases `registered` and `active`. -/
theorem registry_membership_span (acceptOk closedAtCheck : Bool)
    (send : Msg → Nat → Bool) (events : List WriteEvent) (o : SessionObs)
    (ho : o ∈ (subscribeRun acceptOk closedAtCheck send events).1) :
    o.inRegistry = true ↔
      (o.phase = Phase.registered ∨ o.phase = Phase.active) := by
  cases acceptOk with
  | false =>
      simp [subscribeRun] at ho
      rcases ho with rfl | rfl | rfl <;> simp
  | true =>
      cases closedAtCheck with
      | true =>
          simp [subscribeRun] at ho
          rcases ho with rfl | rfl | rfl <;> simp
      | false =>
          rcases hw : (writeLoop send events).2 with _ | res <;>
            · simp [subscribeRun, hw] at ho
              rcases ho with rfl | rfl | rfl | rfl <;> simp

/-- Witness for C2's amended theorem, at the observation point just after
`addSubscriber` in a run where the handshake succeeds. -/
theorem registry_membership_span_witness :
    (true = true) ↔
      (Phase.registered = Phase.registered ∨ Phase.registered = Phase.active) :=
  registry_membership_span true false (fun _ _ => true) []
    { phase := Phase.registered, inRegistry := true } (by decide)

/-- C7.  If `closeSlow` marked the session closed before the guarded check
that follows the handshake, `subscribe` returns `net.ErrClosed`, the write
loop never starts (no observation point has phase `active`, no transmit is
attempted), and the deferred `deleteSubscriber` leaves the subscriber
unregistered; equivalently, storing the accepted connection into an
already-closed state fails. -/
theorem closed_before_handshake_fails_accept (send : Msg → Nat → Bool)
    (events : List WriteEvent) :
    subscribeRun true true send events
      = ([{ phase := Phase.created, inRegistry := false },
          { phase := Phase.registered, inRegistry := true },
          { phase := Phase.closed, inRegistry := false }], [],
         some SubscribeResult.errClosed) ∧
    (∀ (st : ConnState) (c2 : Nat),
        storeConn { st with closed := true } c2 = none) := by
  constructor
  · rfl
  · intro st c2
    rfl

/-- C4.  The write loop transmits every dequeued payload with the 5-second
per-send timeout, a transmit that times out or fails ends the session with
that error, and when the 60-minute deadline fires the loop returns
`ctx.Err()` cleanly and the subscriber's final observation point shows it
removed from the registry. -/
theorem write_loop_timeout_and_deadline (send : Msg → Nat → Bool)
    (events : List WriteEvent) (m : Msg) :
    writeTimeoutSeconds = 5 ∧ sessionDeadlineMinutes = 60 ∧
    (∀ p ∈ (writeLoop send events).1, p.2 = writeTimeoutSeconds) ∧
    (send m writeTimeoutSeconds = false →
        writeLoop send (WriteEvent.msgArrived m :: events)
          = ([(m, writeTimeoutSeconds)], some SubscribeResult.writeError)) ∧
    (writeLoop send (WriteEvent.deadline :: events)
        = ([], some SubscribeResult.ctxDone)) ∧
    ((subscribeRun true false send (WriteEvent.deadline :: events)).1.getLast?
        = some { phase := Phase.closed, inRegistry := false }) := by
  refine ⟨rfl, rfl, ?_, ?_, rfl, rfl⟩
  · intro p hp
    induction events with
    | nil => simp [writeLoop] at hp
    | cons e rest ih =>
        cases e with
        | msgArrived m' =>
            by_cases hsend : send m' writeTimeoutSeconds
            · simp [writeLoop, hsend] at hp
              rcases hp with rfl | hp
              · rfl
              · exact ih hp
            · simp [writeLoop, hsend] at hp
              rw [hp]
        | deadline => simp [writeLoop] at hp
  · intro hfail
    simp [writeLoop, hfail]

/-- Witness for C4: with a transport that always fails, the first dequeued
payload is attempted once with the 5-second timeout and the loop ends with
the write error; the deadline path ends with `ctx.Err()` and the last
observation shows the subscriber deregistered. -/
theorem write_loop_timeout_and_deadline_witness :
    writeLoop (fun _ _ => false) [WriteEvent.msgArrived [1]]
      = ([([1], 5)], some SubscribeResult.writeError) ∧
    writeLoop (fun _ _ => false) [WriteEvent.deadline]
      = ([], some SubscribeResult.ctxDone) ∧
    (subscribeRun true false (fun _ _ => false) [WriteEvent.deadline]).1.getLast?
      = some { phase := Phase.closed, inRegistry := false } := by
  have h := write_loop_timeout_and_deadline (fun _ _ => false) [] [1]
  exact ⟨h.2.2.2.1 rfl, h.2.2.2.2.1, h.2.2.2.2.2⟩

/-- C5, counterexample, refuting two parts of the claim.  First, a
going-away close frame does not end the read loop without error: `listen`
compares the close status only against `StatusNormalClosure`, so on
`StatusGoingAway` the `err != nil` branch runs and the loop returns the
error.  Second, a read-loop error does not become the session's terminal
condition: `subscribe` discards the `go cs.listen(...)` goroutine's return
value, so in a run whose read loop fails with a transport error while the
write loop reaches the deadline, the session's terminal condition is the
deadline's `ctx.Err()`, not the read error. -/
theorem going_away_read_loop_counterexample :
    listenLoop [FrameResult.closeFrame StatusGoingAway]
        = some (some (EchoError.close StatusGoingAway)) ∧
    ¬ listenLoop [FrameResult.closeFrame StatusGoingAway] = some none ∧
    sessionTerminal (fun _ _ => true) [WriteEvent.deadline] [FrameResult.ioError]
        = (some SubscribeResult.ctxDone, some (some EchoError.transport)) ∧
    ¬ (sessionTerminal (fun _ _ => true) [WriteEvent.deadline]
          [FrameResult.ioError]).1 = some SubscribeResult.writeError := by
  decide

/-- C5, amended.  The read loop's outcome is decided by the first iteration
on which `echo` returns an error: a close frame with the normal-closure
code ends the loop without error; a going-away close frame, any other close
code, any other read error, or rate-limiter cancellation ends the loop with
that error.  That error is logged by `listen` and then discarded — the
goroutine's return value is dropped — so the session's terminal condition
is determined by the write loop alone, unchanged whatever the read loop
runs into. -/
theorem read_loop_termination (send : Msg → Nat → Bool)
    (events : List WriteEvent) (frs frs' : List FrameResult) :
    listenLoop frs = listenLoopSpec frs ∧
    (sessionTerminal send events frs).2 = listenLoop frs ∧
    (sessionTerminal send events frs).1 = (sessionTerminal send events frs').1 := by
  refine ⟨?_, rfl, rfl⟩
  induction frs with
  | nil => rfl
  | cons fr rest ih =>
      cases fr with
      | frame m =>
          simpa [listenLoop, listenLoopSpec, echoStep, isCleanFrame,
            List.find?] using ih
      | closeFrame code =>
          simp [listenLoop, listenLoopSpec, echoStep, isCleanFrame, List.find?]
      | limiterCancelled =>
          simp [listenLoop, listenLoopSpec, echoStep, isCleanFrame,
            closeStatus, List.find?]
      | ioError =>
          simp [listenLoop, listenLoopSpec, echoStep, isCleanFrame,
            closeStatus, List.find?]

/-- C3.  `publishHandler`: non-POST requests are answered 405 with no side
effect; a POST whose body exceeds 8192 bytes is answered 413 with the
message neither handled nor broadcast and the server untouched; a POST
whose body of at most 8192 bytes is read successfully is forwarded to the
game handler and then broadcast, and answered 202. -/
theorem publishHandler_statuses (cs : GameServer) (req : HttpRequest) :
    (req.method ≠ Method.POST →
        publishHandler cs req
          = ({ status := 405, handled := none, published := none }, cs, [])) ∧
    (req.method = Method.POST → maxPublishBytes < req.body.length →
        publishHandler cs req
          = ({ status := 413, handled := none, published := none }, cs, [])) ∧
    (req.method = Method.POST → req.readFails = false →
        req.body.length ≤ maxPublishBytes →
        publishHandler cs req
          = ({ status := 202,
               handled := some (req.remoteAddr, req.body),
               published := some req.body },
             (publish cs req.body).1, (publish cs req.body).2)) := by
  refine ⟨?_, ?_, ?_⟩
  · intro hm
    simp [publishHandler, hm]
  · intro hm hbig
    simp [publishHandler, hm, hbig]
  · intro hm hread hsize
    simp [publishHandler, hm, hread, Nat.not_lt.mpr hsize]

/-- Witness for C3: a GET is answered 405, a POST with a 9000-byte body is
answered 413, and a POST with a 2-byte body is answered 202. -/
theorem publishHandler_statuses_witness :
    (publishHandler newGameServer ⟨Method.GET, "peer", [1], false⟩).1.status
        = 405 ∧
    (publishHandler newGameServer
        ⟨Method.POST, "peer", List.replicate 9000 0, false⟩).1.status = 413 ∧
    (publishHandler newGameServer ⟨Method.POST, "peer", [1, 2], false⟩).1.status
        = 202 := by
  refine ⟨?_, ?_, ?_⟩
  · rw [(publishHandler_statuses newGameServer ⟨Method.GET, "peer", [1], false⟩).1
        (by decide)]
  · rw [(publishHandler_statuses newGameServer
        ⟨Method.POST, "peer", List.replicate 9000 0, false⟩).2.1 rfl
        (by rw [List.length_replicate]; decide)]
  · rw [(publishHandler_statuses newGameServer
        ⟨Method.POST, "peer", [1, 2], false⟩).2.2 rfl rfl (by decide)]

/-- C6.  When `closeSlow` runs on a session whose connection has been
stored, it closes the connection with `StatusPolicyViolation` (and marks
the session closed); the eviction is never surfaced to the publishing
caller: `publish` returns no error and a successfully read POST is still
answered 202 whatever the state of the subscribers' queues. -/
theorem closeSlow_policy_violation (st : ConnState) (c : Nat)
    (hc : st.conn = some c) :
    (closeSlow st).2
        = [{ code := StatusPolicyViolation,
             reason := "connection too slow to keep up with messages" }] ∧
    (closeSlow st).1.closed = true ∧
    (∀ (cs : GameServer) (req : HttpRequest),
        req.method = Method.POST → req.readFails = false →
        req.body.length ≤ maxPublishBytes →
        (publishHandler cs req).1.status = 202) := by
  refine ⟨?_, rfl, ?_⟩
  · simp [closeSlow, hc]
  · intro cs req hm hread hsize
    simp [publishHandler, hm, hread, Nat.not_lt.mpr hsize]

/-- Witness for C6: a session with stored connection 1 and a server whose
only subscriber has a full queue. -/
theorem closeSlow_policy_violation_witness :
    (closeSlow { closed := false, conn := some 1 }).2
        = [{ code := StatusPolicyViolation,
             reason := "connection too slow to keep up with messages" }] ∧
    (publishHandler ⟨16, [⟨"a", List.replicate 16 [0]⟩]⟩
        ⟨Method.POST, "peer", [5], false⟩).1.status = 202 := by
  have h := closeSlow_policy_violation { closed := false, conn := some 1 } 1 rfl
  exact ⟨h.1, h.2.2 ⟨16, [⟨"a", List.replicate 16 [0]⟩]⟩
    ⟨Method.POST, "peer", [5], false⟩ rfl rfl (by decide)⟩

/-- C10.  `closeSlow` is safe at every point of the lifecycle: it always
sets the `closed` flag, never touches the connection field, and when no
connection has been stored yet it issues no close call at all; the flag is
never reset — `closeSlow` re-applied keeps it set, and the only other
writer of the guarded state, the post-handshake `storeConn`, refuses an
already-closed state and otherwise leaves the flag as it found it. -/
theorem closeSlow_safe (st : ConnState) (c2 : Nat) :
    (closeSlow st).1.closed = true ∧
    (closeSlow st).1.conn = st.conn ∧
    (st.conn = none → (closeSlow st).2 = []) ∧
    (closeSlow (closeSlow st).1).1.closed = true ∧
    (st.closed = true → storeConn st c2 = none) ∧
    (∀ st', storeConn st c2 = some st' → st'.closed = st.closed) := by
  refine ⟨rfl, rfl, ?_, rfl, ?_, ?_⟩
  · intro hnil
    simp [closeSlow, hnil]
  · intro hcl
    simp [storeConn, hcl]
  · intro st' hst
    unfold storeConn at hst
    by_cases hcl : st.closed
    · simp [hcl] at hst
    · simp [hcl] at hst
      rw [← hst]
      simp [Bool.not_eq_true] at hcl
      exact hcl.symm

/-- Witness for C10: `closeSlow` on the initial state (no connection yet)
only sets the flag, and `storeConn` on a closed state fails. -/
theorem closeSlow_safe_witness :
    (closeSlow { closed := false, conn := none }).1.closed = true ∧
    (closeSlow { closed := false, conn := none }).2 = [] ∧
    storeConn { closed := true, conn := none } 1 = none := by
  have h := closeSlow_safe { closed := false, conn := none } 1
  have h2 := closeSlow_safe { closed := true, conn := none } 1
  exact ⟨h.1, h.2.2.1 rfl, h2.2.2.2.2.1 rfl⟩

end GameHub
